import Mathlib

/-!
Verification of the Pickme Cinime chat page (src/app.py) against its
specification.  The Python module is embedded shallowly: each definition below
transcribes the data and control flow of a named region of src/app.py.
Python attribute slots that the code reads without a guard are modelled by
`Attr`, whose `absent` constructor makes the access raise (an AttributeError,
carried in `Except`); Python values that may be `None` are modelled by
`Option`; Python truthiness of strings and lists is made explicit.
-/

/-! ## Configuration constants (src/app.py lines 7-9, 12-64) -/

def PAGE_TITLE : String := "Pickme Cinime"

def GEMINI_MODEL_NAME : String := "gemini-2.5-flash-preview-04-17"

/-- src/app.py lines 12-55.  The persona prompt is a single fixed string
constant; only its identity (which model object receives it) matters to any
property below, so the multi-paragraph prose is abridged to its first
sentence. -/
def SYSTEM_INSTRUCTION : String :=
  "You are Pickme Cinime, an expert AI assistant specializing in recommending movies and OTT series."

/-- src/app.py lines 58-64: the fixed mood-to-prompt mapping, in source
order. -/
def MOOD_PROMPTS : List (String × String) :=
  [("😄 Happy",
    "I\x27m in the mood for something happy and uplifting! Can you recommend some movies or series?"),
   ("😨 Thrilling",
    "I want something thrilling and suspenseful. Give me some movie or series recommendations."),
   ("🤔 Thoughtful",
    "I\x27d like a thoughtful or intriguing movie/series. What do you suggest?"),
   ("😌 Relaxing",
    "Recommend some relaxing or chill movies/series for a quiet evening."),
   ("😂 Funny",
    "I need a good laugh! What are some funny movies or series?")]

/-! ## Python-value helpers -/

/-- Python truthiness of a string-valued expression: `None` and the empty
string are falsy. -/
def truthyStr : Option String → Bool
  | none => false
  | some s => s != ""

/-- Python `str(x)` for a value that may be `None`. -/
def pyStr : Option String → String
  | none => "None"
  | some s => s

/-- Python `x or "Untitled"` (src/app.py line 242). -/
def orUntitled : Option String → String
  | none => "Untitled"
  | some s => if s = "" then "Untitled" else s

/-- A Python attribute slot: reading an `absent` attribute raises an
AttributeError, which `Except` carries. -/
inductive Attr (α : Type) where
  | absent
  | val (a : α)

/-! ## Data model: turns and sources -/

inductive Role where
  | user
  | assistant
deriving DecidableEq

/-- A recorded source dict (src/app.py line 243): the "title" key holds the
raw provider value (possibly Python `None`, modelled as `none`); the "uri" key
holds the truthy uri string. -/
structure Source where
  title : Option String
  uri : String
deriving DecidableEq

/-- One chat_history entry: a Python dict with keys "role", "content" and
optionally "sources"; `sources := none` models the key being absent. -/
structure Turn where
  role : Role
  content : String
  sources : Option (List Source)
deriving DecidableEq

/-! ## Provider response model -/

/-- The nested web reference of a grounding chunk (fields `title`, `uri`,
read at src/app.py lines 241-243); either value may be Python `None`. -/
structure Web where
  title : Option String
  uri : Option String

structure Chunk where
  web : Attr (Option Web)

structure GroundingMeta where
  grounding_attributions : Attr (List String)
  web_search_queries : Attr (List String)
  grounding_chunks : Attr (List Chunk)

structure Candidate where
  grounding_metadata : Attr (Option GroundingMeta)

/-- How the `.text` accessor of a response can fail (src/app.py lines
222-227 distinguish AttributeError from every other exception). -/
inductive TextErr where
  | attrError
  | otherError (msg : String)

/-- A provider response: `text` models the `.text` accessor (which may
raise), `candidates` the `.candidates` attribute. -/
structure AiResponse where
  text : Except TextErr String
  candidates : Attr (List Candidate)

/-! ## Credential resolution and startup (src/app.py lines 71-86) -/

def MISSING_KEY_MSG : String :=
  "🚨 Google API Key not found. Please set the GOOGLE_API_KEY environment variable or add it to Streamlit secrets."

/-- Outcome of the startup block: either the script halts at `st.stop()` with
the diagnostic already shown, or it proceeds holding the resolved key (only
then are `genai.configure` and the model constructor reached). -/
inductive Init where
  | halted (diagnostic : String)
  | ready (api_key : String)

/-- src/app.py lines 71-79: the environment variable is read first; only when
it is falsy are Streamlit secrets consulted; when the result is still falsy
the app shows `MISSING_KEY_MSG` and stops before any API call. -/
def initApp (env secretsVal : Option String) : Init :=
  let api_key := if truthyStr env then env else secretsVal
  if truthyStr api_key then Init.ready (api_key.getD "") else Init.halted MISSING_KEY_MSG

/-! ## Model and chat-session objects (src/app.py lines 82, 90-99, 199-212) -/

structure GenerativeModel where
  name : String
  system_instruction : Option String

structure ChatSession where
  model : GenerativeModel

/-- src/app.py line 82: the startup model is built from the model name only,
with no system_instruction argument. -/
def generative_model : GenerativeModel :=
  { name := GEMINI_MODEL_NAME, system_instruction := none }

/-- src/app.py lines 92-99: the chat session is created from
`generative_model` when no session exists yet. -/
def chatAfterInit (chat0 : Option ChatSession) : ChatSession :=
  match chat0 with
  | some c => c
  | none => { model := generative_model }

/-- src/app.py lines 199-202. -/
def model_with_sys_instruction : GenerativeModel :=
  { name := GEMINI_MODEL_NAME, system_instruction := some SYSTEM_INSTRUCTION }

/-- src/app.py lines 208-209: the guarded re-initialization creates a chat
from `model_with_sys_instruction` only when no chat session is in session
state; lines 92-99 of the same script run always put one there first, so the
chat used for sending is the one from `chatAfterInit`. -/
def chatUsedForSend (chat0 : Option ChatSession) : ChatSession :=
  let sessionChat : Option ChatSession := some (chatAfterInit chat0)
  match sessionChat with
  | none => { model := model_with_sys_instruction }
  | some c => c

/-- The arguments of the send_message call, src/app.py lines 105-109: the
latest user text is passed through unchanged together with a generation
config naming the google_search_retrieval tool. -/
structure SendCall where
  promptArg : String
  tools : List String

def sendCall (user_text : String) : SendCall :=
  { promptArg := user_text, tools := ["google_search_retrieval"] }

/-- src/app.py lines 103-133 (get_ai_response): any exception raised by
send_message is caught; an st.error diagnostic embedding the detail is shown
and None is returned to the caller. -/
def get_ai_response (send : String → Except String AiResponse) (prompt : String) :
    Option AiResponse × List String :=
  match send prompt with
  | Except.ok r => (some r, [])
  | Except.error e => (none, ["🚨 Error communicating with the AI: " ++ e])

/-! ## Response normalization (src/app.py lines 220-245) -/

/-- src/app.py lines 220-227: `response.text` is attempted; an AttributeError
and any other exception are each caught and replaced by a fixed fallback
string plus an st.error diagnostic.  The second component collects the
diagnostics shown. -/
def extractText (r : AiResponse) : String × List String :=
  match r.text with
  | Except.ok t => (t, [])
  | Except.error TextErr.attrError =>
    ("Sorry, I encountered an issue processing the response.",
     ["Error accessing AI response text."])
  | Except.error (TextErr.otherError m) =>
    ("Sorry, I had trouble understanding the AI\x27s answer.",
     ["Error extracting text from AI response: " ++ m])

/-- One iteration of the loop at src/app.py lines 240-243: a chunk yields a
source exactly when `chunk.web` is truthy and `chunk.web.uri` is truthy; the
recorded title is the raw `chunk.web.title`.  Reading an absent `web`
attribute raises. -/
def chunkSource (c : Chunk) : Except String (Option Source) :=
  match c.web with
  | Attr.absent => Except.error "AttributeError: web"
  | Attr.val none => Except.ok none
  | Attr.val (some w) =>
    if truthyStr w.uri then Except.ok (some { title := w.title, uri := w.uri.getD "" })
    else Except.ok none

/-- The whole loop at src/app.py lines 240-243, in list order; the first
raising chunk aborts the loop. -/
def extractChunks : List Chunk → Except String (List Source)
  | [] => Except.ok []
  | c :: cs =>
    match chunkSource c with
    | Except.error e => Except.error e
    | Except.ok s =>
      match extractChunks cs with
      | Except.error e => Except.error e
      | Except.ok rest =>
        match s with
        | none => Except.ok rest
        | some src => Except.ok (src :: rest)

/-- src/app.py lines 234-243: sources are extracted only when the candidate
list is truthy, the first candidate carries grounding metadata, and the
`grounding_attributions or web_search_queries` gate passes (short-circuit:
the queries attribute is read only when the attributions list is falsy).
There is no exception handler anywhere around this block. -/
def extractSources (r : AiResponse) : Except String (List Source) :=
  match r.candidates with
  | Attr.absent => Except.error "AttributeError: candidates"
  | Attr.val [] => Except.ok []
  | Attr.val (c0 :: _) =>
    match c0.grounding_metadata with
    | Attr.absent => Except.error "AttributeError: grounding_metadata"
    | Attr.val none => Except.ok []
    | Attr.val (some gm) =>
      match gm.grounding_attributions with
      | Attr.absent => Except.error "AttributeError: grounding_attributions"
      | Attr.val attrs =>
        if attrs != [] then
          match gm.grounding_chunks with
          | Attr.absent => Except.error "AttributeError: grounding_chunks"
          | Attr.val chunks => extractChunks chunks
        else
          match gm.web_search_queries with
          | Attr.absent => Except.error "AttributeError: web_search_queries"
          | Attr.val queries =>
            if queries != [] then
              match gm.grounding_chunks with
              | Attr.absent => Except.error "AttributeError: grounding_chunks"
              | Attr.val chunks => extractChunks chunks
            else Except.ok []

/-! ## Conversation store (src/app.py lines 138-144, 159-177, 214-252) -/

/-- A dict appended as an assistant message (src/app.py lines 231 and 251):
no "sources" key yet. -/
def assistantTurn (txt : String) : Turn :=
  { role := Role.assistant, content := txt, sources := none }

/-- A dict appended as a user message (src/app.py lines 161 and 175). -/
def userTurn (txt : String) : Turn :=
  { role := Role.user, content := txt, sources := none }

/-- `st.session_state.chat_history.append(...)`. -/
def appendTurn (h : List Turn) (t : Turn) : List Turn := h ++ [t]

/-- src/app.py line 245: `st.session_state.chat_history[-1]["sources"] =
sources` (a no-op on an empty history, which cannot occur there). -/
def setLastSources : List Turn → List Source → List Turn
  | [], _ => []
  | [t], s => [{ t with sources := some s }]
  | t :: u :: ts, s => t :: setLastSources (u :: ts) s

def NO_RESPONSE_MSG : String :=
  "Sorry, I couldn\x27t get a response. Please try again."

/-- src/app.py lines 214-252: on a response, the text is extracted and an
assistant turn appended (line 231); then sources are extracted — uncaught on
failure — and, when non-empty, written into the just-appended turn (lines
244-245).  On `None` (a failed call) the fixed fallback turn is appended
(line 251). -/
def handleResponse (h : List Turn) (r : Option AiResponse) : Except String (List Turn) :=
  match r with
  | none => Except.ok (appendTurn h (assistantTurn NO_RESPONSE_MSG))
  | some resp =>
    let h1 := appendTurn h (assistantTurn (extractText resp).1)
    match extractSources resp with
    | Except.error e => Except.error e
    | Except.ok srcs => Except.ok (if srcs != [] then setLastSources h1 srcs else h1)

/-- src/app.py line 144: `source.get("title", "N/A")` rendered into the
caption.  Dicts built at line 243 always carry the "title" key, so the
stored value (possibly `None`) is returned and str-formatted; the "N/A"
default is unreachable for them. -/
def historyCaption (i : Nat) (s : Source) : String :=
  toString (i + 1) ++ ". " ++ pyStr s.title ++ ": " ++ s.uri

/-- src/app.py line 242: the caption shown while extracting, which applies
the `or "Untitled"` fallback to the raw title. -/
def extractionCaption (i : Nat) (w : Web) : String :=
  toString (i + 1) ++ ". " ++ orUntitled w.title ++ ": " ++ pyStr w.uri

/-- One pass of the render loop, src/app.py lines 138-144: the message text,
plus one caption per recorded source when the "sources" key is present and
truthy. -/
def renderTurn (t : Turn) : Role × String × List String :=
  (t.role, t.content,
    match t.sources with
    | none => []
    | some srcs =>
      if srcs != [] then srcs.enum.map (fun p => historyCaption p.1 p.2) else [])

/-- The whole render loop: every history entry, first to last. -/
def renderAll (h : List Turn) : List (Role × String × List String) :=
  h.map renderTurn

/-! ## Input dispatch (src/app.py lines 159-177) -/

/-- src/app.py lines 159-166: the clicked mood button appends a user turn
with the mapped prompt text, and that same text becomes the input forwarded
to the AI. -/
def moodClick (h : List Turn) (prompt_text : String) : List Turn × String :=
  (appendTurn h (userTurn prompt_text), prompt_text)

/-- src/app.py lines 171-177: typed input appends a user turn and is
forwarded unchanged. -/
def freeTextInput (h : List Turn) (user_query : String) : List Turn × String :=
  (appendTurn h (userTurn user_query), user_query)

def lookupMood (mood : String) : Option String :=
  (MOOD_PROMPTS.find? (fun p => p.1 == mood)).map Prod.snd

/-- Selecting a mood: look the label up in `MOOD_PROMPTS` and run the button
handler with the mapped prompt text. -/
def selectMood (h : List Turn) (mood : String) : Option (List Turn × String) :=
  match lookupMood mood with
  | none => none
  | some p => some (moodClick h p)

/-! ## Spec-side descriptions and helper lemmas -/

/-- Spec-side description of the per-entry filter actually implemented: a
chunk contributes a source exactly when its web value is present with a
truthy uri; the recorded title is the raw value. -/
def specChunkSource (c : Chunk) : Option Source :=
  match c.web with
  | Attr.val (some w) =>
    if truthyStr w.uri then some { title := w.title, uri := w.uri.getD "" } else none
  | _ => none

/-- A chunk on which the loop body cannot raise: its `web` attribute is
present (possibly `None`). -/
def chunkWellFormed (c : Chunk) : Bool :=
  match c.web with
  | Attr.absent => false
  | Attr.val _ => true

/-- A response on which the source-extraction block cannot raise: every
attribute it may read is present (the shape real SDK objects have). -/
def wellFormed (r : AiResponse) : Bool :=
  match r.candidates with
  | Attr.absent => false
  | Attr.val [] => true
  | Attr.val (c0 :: _) =>
    match c0.grounding_metadata with
    | Attr.absent => false
    | Attr.val none => true
    | Attr.val (some gm) =>
      match gm.grounding_attributions, gm.web_search_queries, gm.grounding_chunks with
      | Attr.val _, Attr.val _, Attr.val cs => cs.all chunkWellFormed
      | _, _, _ => false

def extractionOk : Except String (List Source) → Bool
  | Except.ok _ => true
  | Except.error _ => false

/-- Whether `needle` occurs as a contiguous substring of `hay`. -/
def strContains (hay needle : String) : Bool :=
  (List.range (hay.length + 1)).any (fun k => needle.toList.isPrefixOf (hay.toList.drop k))

/-- The single turn an assistant-handling interaction contributes (derived
from `handleResponse`): the fallback turn on a failed call, otherwise the
extracted text with the extracted sources attached when non-empty. -/
def interactionTurn (ro : Option AiResponse) : Turn :=
  match ro with
  | none => assistantTurn NO_RESPONSE_MSG
  | some r =>
    match extractSources r with
    | Except.ok srcs =>
      if srcs != [] then { assistantTurn (extractText r).1 with sources := some srcs }
      else assistantTurn (extractText r).1
    | Except.error _ => assistantTurn (extractText r).1

def expectedAssistantText : Option AiResponse → String
  | none => NO_RESPONSE_MSG
  | some r => (extractText r).1

theorem setLastSources_append (h : List Turn) (t : Turn) (s : List Source) :
    setLastSources (h ++ [t]) s = h ++ [{ t with sources := some s }] := by
  induction h with
  | nil => rfl
  | cons a h ih =>
    cases h with
    | nil => rfl
    | cons b h3 =>
      simp only [List.cons_append] at ih ⊢
      rw [setLastSources]
      rw [ih]

theorem extractChunks_wellFormed (cs : List Chunk) (h : cs.all chunkWellFormed = true) :
    extractChunks cs = Except.ok (cs.filterMap specChunkSource) := by
  induction cs with
  | nil => rfl
  | cons c cs ih =>
    rw [List.all_cons, Bool.and_eq_true] at h
    obtain ⟨h1, h2⟩ := h
    obtain ⟨wAttr⟩ := c
    cases wAttr with
    | absent => simp [chunkWellFormed] at h1
    | val w =>
      cases w with
      | none =>
        simp [extractChunks, chunkSource, specChunkSource, ih h2]
      | some web =>
        by_cases hu : truthyStr web.uri = true
        · simp [extractChunks, chunkSource, specChunkSource, hu, ih h2]
        · rw [Bool.not_eq_true] at hu
          simp [extractChunks, chunkSource, specChunkSource, hu, ih h2]

/-! ## Concrete inputs used by counterexamples and witnesses -/

/-- A grounded response: truthy attributions gate, one chunk with title and
uri. -/
def sampleResp : AiResponse :=
  { text := Except.ok "Great picks!",
    candidates := Attr.val [{ grounding_metadata := Attr.val (some
      { grounding_attributions := Attr.val ["a"],
        web_search_queries := Attr.val [],
        grounding_chunks := Attr.val
          [{ web := Attr.val (some { title := some "IMDb", uri := some "http://imdb.com" }) }] }) }] }

/-- A plain response: text only, empty candidate list. -/
def sampleRespPlain : AiResponse :=
  { text := Except.ok "Try Coco.", candidates := Attr.val [] }

/-- A partially present grounding substructure: the gate attributes exist and
the attributions list is truthy, but the grounding_chunks attribute is
absent. -/
def malformedResp : AiResponse :=
  { text := Except.ok "ok",
    candidates := Attr.val [{ grounding_metadata := Attr.val (some
      { grounding_attributions := Attr.val ["a"],
        web_search_queries := Attr.val [],
        grounding_chunks := Attr.absent }) }] }

/-- Chunks of every usable and unusable well-formed shape: web None, uri
present but title None, uri empty, and a fully usable entry. -/
def mixedChunks : List Chunk :=
  [{ web := Attr.val none },
   { web := Attr.val (some { title := none, uri := some "http://a" }) },
   { web := Attr.val (some { title := some "B", uri := some "" }) },
   { web := Attr.val (some { title := some "C", uri := some "http://c" }) }]

def mixedResp : AiResponse :=
  { text := Except.ok "ok",
    candidates := Attr.val [{ grounding_metadata := Attr.val (some
      { grounding_attributions := Attr.val [],
        web_search_queries := Attr.val ["q"],
        grounding_chunks := Attr.val mixedChunks }) }] }

/-- A response with an entry that has a uri but no title. -/
def titlelessResp : AiResponse :=
  { text := Except.ok "ok",
    candidates := Attr.val [{ grounding_metadata := Attr.val (some
      { grounding_attributions := Attr.val ["a"],
        web_search_queries := Attr.val [],
        grounding_chunks := Attr.val
          [{ web := Attr.val (some { title := none, uri := some "http://a" }) }] }) }] }

/-! ## Claim theorems -/

/-- C4: the credential is resolved with fixed precedence — the environment
variable first, Streamlit secrets only as fallback — and when both are falsy
the startup block halts with the missing-key diagnostic, before
`genai.configure` or any model construction (`Init.halted` carries no key and
no model, so no collaborator call can be attempted and no later interaction
can raise over the missing credential). -/
theorem c4_credential_precedence (env secretsVal : Option String) :
    initApp env secretsVal =
      (if truthyStr env then Init.ready (env.getD "")
       else if truthyStr secretsVal then Init.ready (secretsVal.getD "")
       else Init.halted MISSING_KEY_MSG) := by
  unfold initApp
  cases he : truthyStr env <;> simp [he]

/-- C5: whenever the `.text` accessor fails — attribute absent or any other
extraction error — `extractText` substitutes the fixed apology string for
that failure class as the assistant text and shows a non-fatal st.error
diagnostic; being a total function, it never propagates the failure. -/
theorem c5_text_fallback (e : TextErr) (cands : Attr (List Candidate)) :
    (extractText { text := Except.error e, candidates := cands } =
      ("Sorry, I encountered an issue processing the response.",
       ["Error accessing AI response text."]) ∨
     (∃ m, e = TextErr.otherError m ∧
      extractText { text := Except.error e, candidates := cands } =
        ("Sorry, I had trouble understanding the AI\x27s answer.",
         ["Error extracting text from AI response: " ++ m]))) ∧
    (extractText { text := Except.error e, candidates := cands }).2 ≠ [] := by
  cases e with
  | attrError => exact ⟨Or.inl rfl, by simp [extractText]⟩
  | otherError m => exact ⟨Or.inr ⟨m, rfl, rfl⟩, by simp [extractText]⟩

/-- C6: selecting any mood in the fixed preset mapping appends a user turn
whose text is exactly the mapped preset string, and hands the interaction the
same (history, forwarded input) pair as typing that string would; the
"😂 Funny" preset maps to exactly its documented prompt. -/
theorem c6_mood_presets :
    (∀ mood p, lookupMood mood = some p →
      ∀ h, selectMood h mood = some (h ++ [userTurn p], p) ∧
        selectMood h mood = some (freeTextInput h p)) ∧
    lookupMood "😂 Funny" = some "I need a good laugh! What are some funny movies or series?" := by
  refine ⟨fun mood p hp h => ?_, rfl⟩
  rw [selectMood, hp]
  exact ⟨rfl, rfl⟩

theorem c6_mood_presets_witness :
    selectMood [] "😂 Funny" =
      some ([userTurn "I need a good laugh! What are some funny movies or series?"],
        "I need a good laugh! What are some funny movies or series?") :=
  (c6_mood_presets.1 "😂 Funny"
    "I need a good laugh! What are some funny movies or series?" rfl []).1

/-- C8: on a fresh session the chat actually used for sending was created
from the startup model, which carries no system_instruction; the model built
with the persona prompt exists (line 199) but the re-initialization guarded
at line 208 is dead because a chat session always already exists.  The user
text itself is forwarded verbatim together with the google_search_retrieval
tool. -/
theorem c8_persona_prompt_not_attached :
    (chatUsedForSend none).model.system_instruction = none ∧
    model_with_sys_instruction.system_instruction = some SYSTEM_INSTRUCTION ∧
    sendCall "hi" = { promptArg := "hi", tools := ["google_search_retrieval"] } :=
  ⟨rfl, rfl, rfl⟩

/-- C9: source extraction is gated on the attributions/queries check at line
237 — when both grounding_attributions and web_search_queries are empty, no
source is recorded, whatever grounding_chunks holds (even entries with a
non-empty uri and a title). -/
theorem c9_gate_on_empty_flags (tx : Except TextErr String) (gc : Attr (List Chunk))
    (rest : List Candidate) :
    extractSources
      { text := tx,
        candidates := Attr.val
          ({ grounding_metadata := Attr.val (some
               { grounding_attributions := Attr.val [],
                 web_search_queries := Attr.val [],
                 grounding_chunks := gc }) } :: rest) } = Except.ok [] := rfl

/-! Syntax model for C10: in a Python suite, an `elif` clause must
immediately follow an `if` or `elif` statement at the same indentation. -/

inductive Stmt where
  | simple
  | ifStmt
  | withStmt
  | elifStmt

def elifAllowedAfter : Option Stmt → Bool
  | some Stmt.ifStmt => true
  | some Stmt.elifStmt => true
  | _ => false

def suiteValidFrom : Option Stmt → List Stmt → Bool
  | _, [] => true
  | prev, s :: rest =>
    (match s with
     | Stmt.elifStmt => elifAllowedAfter prev
     | _ => true) && suiteValidFrom (some s) rest

def suiteValid (l : List Stmt) : Bool := suiteValidFrom none l

/-- The statements at indentation 4 inside the `if user_query or
mood_button_clicked:` block, src/app.py lines 172-255: the assignment at
172, the `if not mood_button_clicked:` statement at 174, the
`with st.chat_message("assistant"):` statement at 179, and the `elif` clause
at 254. -/
def interactionSuite : List Stmt :=
  [Stmt.simple, Stmt.ifStmt, Stmt.withStmt, Stmt.elifStmt]

/-- C10: the `elif` clause at line 254 immediately follows the `with` block
at the same indentation rather than an `if`, so the suite — and with it the
module — is not syntactically valid Python and none of its interaction
handling can execute. -/
theorem c10_module_not_valid_python : suiteValid interactionSuite = false := rfl

/-- C1 counterexample: for the grounded response `sampleResp`, the final
history holds a turn whose "sources" field differs from the turn as it was
appended at line 231 (`assistantTurn "Great picks!"`, no "sources" key): line
245 mutated it after the append, so reading the conversation does not return
the appended turns with the field values they were appended with. -/
theorem c1_counterexample :
    handleResponse [] (some sampleResp) =
      Except.ok [{ role := Role.assistant, content := "Great picks!",
                   sources := some [{ title := some "IMDb", uri := "http://imdb.com" }] }] ∧
    ({ role := Role.assistant, content := "Great picks!",
       sources := some [{ title := some "IMDb", uri := "http://imdb.com" }] } : Turn) ≠
      assistantTurn "Great picks!" :=
  ⟨rfl, by decide⟩

/-- C1 amended: the conversation log is modified only by appends and by one
write to the "sources" field of the just-appended assistant turn inside the
same interaction (line 245).  Every interaction that completes leaves all
previously appended turns untouched and in order, appends exactly one
assistant turn carrying the extracted text, and the render loop shows the
old turns unchanged followed by the new one. -/
theorem c1_append_per_interaction (h : List Turn) (ro : Option AiResponse)
    (h2 : List Turn) (hok : handleResponse h ro = Except.ok h2) :
    h2 = h ++ [interactionTurn ro] ∧
    (interactionTurn ro).role = Role.assistant ∧
    (interactionTurn ro).content = expectedAssistantText ro ∧
    renderAll h2 = renderAll h ++ [renderTurn (interactionTurn ro)] := by
  have hmain : h2 = h ++ [interactionTurn ro] := by
    cases ro with
    | none =>
      simp only [handleResponse, Except.ok.injEq] at hok
      rw [← hok]
      rfl
    | some r =>
      cases hes : extractSources r with
      | error e =>
        simp only [handleResponse, hes] at hok
        exact Except.noConfusion hok
      | ok srcs =>
        simp only [handleResponse, hes, Except.ok.injEq] at hok
        by_cases hne : (srcs != []) = true
        · rw [if_pos hne] at hok
          rw [← hok, appendTurn, setLastSources_append]
          simp [interactionTurn, hes, hne, assistantTurn]
        · rw [Bool.not_eq_true] at hne
          rw [hne, if_neg Bool.false_ne_true] at hok
          rw [← hok]
          simp [interactionTurn, hes, hne, appendTurn, assistantTurn]
  have hrole : (interactionTurn ro).role = Role.assistant := by
    cases ro with
    | none => rfl
    | some r =>
      cases hes : extractSources r with
      | error e => simp [interactionTurn, hes, assistantTurn]
      | ok srcs =>
        by_cases hne : (srcs != []) = true <;>
          simp [interactionTurn, hes, hne, assistantTurn]
  have hcontent : (interactionTurn ro).content = expectedAssistantText ro := by
    cases ro with
    | none => rfl
    | some r =>
      cases hes : extractSources r with
      | error e => simp [interactionTurn, hes, assistantTurn, expectedAssistantText]
      | ok srcs =>
        by_cases hne : (srcs != []) = true <;>
          simp [interactionTurn, hes, hne, assistantTurn, expectedAssistantText]
  refine ⟨hmain, hrole, hcontent, ?_⟩
  rw [hmain]
  simp [renderAll]

theorem c1_append_per_interaction_witness :
    ([assistantTurn "Try Coco."] : List Turn) = [] ++ [interactionTurn (some sampleRespPlain)] :=
  (c1_append_per_interaction [] (some sampleRespPlain) [assistantTurn "Try Coco."] rfl).1

/-- C2 counterexample: a grounding substructure that is only partially
present — gate attributes there, attributions truthy, but no
grounding_chunks attribute — makes source extraction raise an AttributeError
instead of degrading to an empty source list. -/
theorem c2_counterexample :
    extractSources malformedResp = Except.error "AttributeError: grounding_chunks" := rfl

/-- C2 amended: when every attribute the block reads is present (the shape
real SDK responses have), extraction never raises — unusable entries are
skipped individually and missing grounding metadata degrades to no sources —
but there is no exception handler around the block, so a malformed or
partially present substructure raises past it (see the counterexample). -/
theorem c2_no_raise_when_wellformed (r : AiResponse) (h : wellFormed r = true) :
    extractionOk (extractSources r) = true := by
  obtain ⟨tx, cands⟩ := r
  cases cands with
  | absent => simp [wellFormed] at h
  | val cs =>
    cases cs with
    | nil => rfl
    | cons c0 rest =>
      obtain ⟨gmAttr⟩ := c0
      cases gmAttr with
      | absent => simp [wellFormed] at h
      | val gmo =>
        cases gmo with
        | none => rfl
        | some gm =>
          obtain ⟨ga, wq, gc⟩ := gm
          cases ga with
          | absent => simp [wellFormed] at h
          | val attrs =>
            cases wq with
            | absent => simp [wellFormed] at h
            | val queries =>
              cases gc with
              | absent => simp [wellFormed] at h
              | val chunks =>
                simp only [wellFormed] at h
                have hc := extractChunks_wellFormed chunks h
                simp only [extractSources]
                by_cases ha : (attrs != []) = true
                · rw [if_pos ha, hc]; rfl
                · rw [Bool.not_eq_true] at ha
                  rw [ha, if_neg Bool.false_ne_true]
                  by_cases hq2 : (queries != []) = true
                  · rw [if_pos hq2, hc]; rfl
                  · rw [Bool.not_eq_true] at hq2
                    rw [hq2, if_neg Bool.false_ne_true]
                    rfl

theorem c2_no_raise_witness : extractionOk (extractSources mixedResp) = true :=
  c2_no_raise_when_wellformed mixedResp rfl

/-- C3 counterexample: an entry with a non-empty uri but an absent title is
recorded with the raw absent title, not with a placeholder, and the history
render (whose "N/A" default never fires because the "title" key is always
present) shows it as "None". -/
theorem c3_counterexample :
    extractSources titlelessResp = Except.ok [{ title := none, uri := "http://a" }] ∧
    historyCaption 0 { title := none, uri := "http://a" } = "1. None: http://a" ∧
    historyCaption 0 { title := none, uri := "http://a" } ≠ "1. N/A: http://a" ∧
    historyCaption 0 { title := none, uri := "http://a" } ≠ "1. Untitled: http://a" :=
  ⟨rfl, rfl, by decide, by decide⟩

/-- C3 amended: over any list of grounding entries whose loop body cannot
raise, exactly the entries with a truthy uri are recorded, in their original
relative order, with the title recorded as the raw provider value; an absent
title receives the "Untitled" placeholder only in the extraction-time
caption (line 242), where it is displayed exactly as a title reading
"Untitled" would be. -/
theorem c3_uri_filter_order (cs : List Chunk) (h : cs.all chunkWellFormed = true) :
    extractChunks cs = Except.ok (cs.filterMap specChunkSource) ∧
    (∀ (u : Option String) (i : Nat),
      extractionCaption i { title := none, uri := u } =
        extractionCaption i { title := some "Untitled", uri := u }) :=
  ⟨extractChunks_wellFormed cs h, fun _ _ => rfl⟩

theorem c3_uri_filter_order_witness :
    extractChunks mixedChunks =
      Except.ok [{ title := none, uri := "http://a" }, { title := some "C", uri := "http://c" }] :=
  (c3_uri_filter_order mixedChunks rfl).1

/-- C7 counterexample: when the collaborator call fails with detail
"429 quota exceeded", the appended assistant turn is the fixed apology
string, which does not contain the error detail; the detail appears only in
the st.error diagnostic of get_ai_response. -/
theorem c7_counterexample :
    get_ai_response (fun _ => Except.error "429 quota exceeded") "hi" =
      (none, ["🚨 Error communicating with the AI: 429 quota exceeded"]) ∧
    handleResponse [] none = Except.ok [assistantTurn NO_RESPONSE_MSG] ∧
    strContains NO_RESPONSE_MSG "429 quota exceeded" = false ∧
    strContains "🚨 Error communicating with the AI: 429 quota exceeded"
      "429 quota exceeded" = true :=
  ⟨rfl, rfl, rfl, rfl⟩

/-- C7 amended: a collaborator-call failure is recovered at the call site —
get_ai_response catches it, shows an st.error diagnostic that embeds the
error detail, and returns None — after which the interaction appends the
fixed apologetic assistant turn (which does not carry the detail) and the
history, with every earlier turn intact, stays usable for later turns. -/
theorem c7_failure_recovered (e prompt : String) (h : List Turn) :
    get_ai_response (fun _ => Except.error e) prompt =
      (none, ["🚨 Error communicating with the AI: " ++ e]) ∧
    handleResponse h none = Except.ok (h ++ [assistantTurn NO_RESPONSE_MSG]) :=
  ⟨rfl, rfl⟩
